import Mathlib

/-!
Verification development for the cdp-html-shot library: a shallow embedding of
the browser supervisor (`src/browser.rs`), the transport actor
(`src/transport.rs`), the element capture layer (`src/element.rs`), the
capture configuration types (`src/types.rs`) and the tab navigation code
(`src/lib.rs`), together with theorems settling the specification claims.

Modelling conventions:
* `f64` coordinate values from the CDP box model are modelled as `ℚ`; the
  claims about them are structural (which quad entries feed which clip field),
  not about rounding.
* `usize` is modelled as `Nat` with explicit reduction modulo `2 ^ 64` where
  the source performs wrapping arithmetic (`fetch_add`).
* Effectful steps (process spawn, WebSocket round trips) are modelled by
  oracles: a structure recording the outcome the outside world would produce
  for each step.  The embedded functions return both a result and the ordered
  trace of externally visible actions, mirroring the Rust control flow,
  including the drop semantics of each early `?` return.
-/

namespace CdpShot

/-! ## Capture configuration (`src/types.rs`) -/

/-- `ImageFormat` from `src/types.rs`. -/
inductive ImageFormat
  | Jpeg
  | Png
  | WebP
deriving DecidableEq

/-- `ImageFormat::as_str`. -/
def ImageFormat.asStr : ImageFormat → String
  | .Jpeg => "jpeg"
  | .Png => "png"
  | .WebP => "webp"

/-- `Viewport` from `src/types.rs`; `device_scale_factor: f64` modelled as `ℚ`. -/
structure Viewport where
  width : Nat
  height : Nat
  deviceScaleFactor : ℚ
  isMobile : Bool
  hasTouch : Bool
  isLandscape : Bool
deriving DecidableEq

/-- `Viewport::default`. -/
def Viewport.default : Viewport :=
  { width := 800, height := 600, deviceScaleFactor := 1,
    isMobile := false, hasTouch := false, isLandscape := false }

/-- `Viewport::with_device_scale_factor`. -/
def Viewport.withDeviceScaleFactor (v : Viewport) (factor : ℚ) : Viewport :=
  { v with deviceScaleFactor := factor }

/-- `ClipRegion` from `src/types.rs`. -/
structure ClipRegion where
  x : ℚ
  y : ℚ
  width : ℚ
  height : ℚ
  scale : ℚ
deriving DecidableEq

/-- `CaptureOptions` from `src/types.rs`; `quality: Option<u8>` modelled as `Option Nat`. -/
structure CaptureOptions where
  format : ImageFormat
  quality : Option Nat
  viewport : Option Viewport
  fullPage : Bool
  omitBackground : Bool
  clip : Option ClipRegion
deriving DecidableEq

/-- `CaptureOptions::default` (all fields `Default`; `ImageFormat` defaults to `Jpeg`). -/
def CaptureOptions.default : CaptureOptions :=
  { format := .Jpeg, quality := none, viewport := none,
    fullPage := false, omitBackground := false, clip := none }

/-- `CaptureOptions::new`. -/
def CaptureOptions.new : CaptureOptions := CaptureOptions.default

/-- `CaptureOptions::with_format`. -/
def CaptureOptions.withFormat (o : CaptureOptions) (f : ImageFormat) : CaptureOptions :=
  { o with format := f }

/-- `CaptureOptions::with_quality`: stores `quality.min(100)` (`src/types.rs:192-195`). -/
def CaptureOptions.withQuality (o : CaptureOptions) (q : Nat) : CaptureOptions :=
  { o with quality := some (min q 100) }

/-- `CaptureOptions::with_viewport`. -/
def CaptureOptions.withViewport (o : CaptureOptions) (v : Viewport) : CaptureOptions :=
  { o with viewport := some v }

/-- `CaptureOptions::with_omit_background`. -/
def CaptureOptions.withOmitBackground (o : CaptureOptions) (b : Bool) : CaptureOptions :=
  { o with omitBackground := b }

/-- `CaptureOptions::raw_png`. -/
def CaptureOptions.rawPng : CaptureOptions :=
  CaptureOptions.new.withFormat .Png

/-! ## Element capture parameters (`src/element.rs`, `screenshot_with_options`) -/

/-- The `clip` object sent inside `Page.captureScreenshot` params. -/
structure Clip where
  x : ℚ
  y : ℚ
  width : ℚ
  height : ℚ
  scale : ℚ
deriving DecidableEq

/-- The params object built for `Page.captureScreenshot` in
`Element::screenshot_with_options` (`src/element.rs:77-86`). -/
structure CaptureParams where
  format : String
  clip : Clip
  fromSurface : Bool
  captureBeyondViewport : Bool
  quality : Option Nat
deriving DecidableEq

/-- The node's border quad as delivered by `DOM.getBoxModel`; an absent or
non-numeric entry is read as `0.0` by `as_f64().unwrap_or(0.0)`. -/
def borderAt (border : Nat → Option ℚ) (i : Nat) : ℚ :=
  (border i).getD 0

/-- Builds the `Page.captureScreenshot` params exactly as
`Element::screenshot_with_options` does (`src/element.rs:70-86`): clip from the
border quad (`x = border[0]`, `y = border[1]`, `width = border[2] - border[0]`,
`height = border[5] - border[1]`, `scale = 1.0`), `fromSurface = true`,
`captureBeyondViewport = opts.full_page`, and a `quality` field added only when
the format matches `Jpeg | WebP`, defaulting to `90`. -/
def buildCaptureParams (opts : CaptureOptions) (border : Nat → Option ℚ) : CaptureParams :=
  { format := opts.format.asStr
    clip :=
      { x := borderAt border 0
        y := borderAt border 1
        width := borderAt border 2 - borderAt border 0
        height := borderAt border 5 - borderAt border 1
        scale := 1 }
    fromSurface := true
    captureBeyondViewport := opts.fullPage
    quality :=
      match opts.format with
      | .Jpeg | .WebP => some (opts.quality.getD 90)
      | .Png => none }

/-! ## Element screenshot control flow (`src/element.rs:47-144`) -/

/-- The session-scoped commands `screenshot_with_options` can issue, in the
order the source issues them. -/
inductive SessionCmd
  | setDeviceMetricsOverride (v : Viewport)
  | setTouchEmulation
  | getBoxModel
  | setBgTransparent
  | activateTarget
  | captureScreenshot (p : CaptureParams)
  | clearBgOverride
deriving DecidableEq

/-- Commands issued by `Tab::set_viewport`: `Emulation.setDeviceMetricsOverride`,
then `Emulation.setTouchEmulationEnabled` when touch is requested. -/
def setViewportCmds (v : Viewport) : List SessionCmd :=
  [SessionCmd.setDeviceMetricsOverride v] ++
    (if v.hasTouch then [SessionCmd.setTouchEmulation] else [])

/-- Outcome oracle for one run of `screenshot_with_options`: whether each
round trip (`send_and_get_msg` plus `serde_msg`) succeeds, the border quad the
browser reports, and the `result.data` payload of the capture reply. -/
structure ShotWorld where
  viewportOk : Bool
  boxOk : Bool
  border : Nat → Option ℚ
  bgOverrideOk : Bool
  activateOk : Bool
  captureOk : Bool
  imageData : Option String

/-- Errors surfaced by `screenshot_with_options`, one per failing step. -/
inductive ShotErr
  | viewportFailed
  | boxFailed
  | bgOverrideFailed
  | activateFailed
  | captureFailed
  | noImageData
deriving DecidableEq

/-- `Element::screenshot_with_options` (`src/element.rs:47-144`) as a function
of its outcome oracle, returning the result and the ordered trace of session
commands actually issued.  Each `?` in the source is an early return that stops
the trace at the failing step; in particular the capture round trip at
`src/element.rs:114-121` is awaited with `?` before the background-override
reset block at `src/element.rs:123-138`, while that reset block itself ignores
its own result (`let _ = ...`) and is followed by the `result.data` extraction. -/
def screenshotWithOptions (opts : CaptureOptions) (w : ShotWorld) :
    Except ShotErr String × List SessionCmd :=
  let tV : List SessionCmd :=
    match opts.viewport with
    | some v => setViewportCmds v
    | none => []
  if opts.viewport.isSome && !w.viewportOk then
    (.error .viewportFailed, tV)
  else
    let t1 := tV ++ [SessionCmd.getBoxModel]
    if !w.boxOk then (.error .boxFailed, t1)
    else
      let params := buildCaptureParams opts w.border
      let omitPng := opts.omitBackground && (opts.format == ImageFormat.Png)
      let t2 := if omitPng then t1 ++ [SessionCmd.setBgTransparent] else t1
      if omitPng && !w.bgOverrideOk then (.error .bgOverrideFailed, t2)
      else
        let t3 := t2 ++ [SessionCmd.activateTarget]
        if !w.activateOk then (.error .activateFailed, t3)
        else
          let t4 := t3 ++ [SessionCmd.captureScreenshot params]
          if !w.captureOk then (.error .captureFailed, t4)
          else
            let t5 := if omitPng then t4 ++ [SessionCmd.clearBgOverride] else t4
            match w.imageData with
            | some s => (.ok s, t5)
            | none => (.error .noImageData, t5)

/-! ## Executable discovery (`src/browser.rs:152-259`, `Browser::find_chrome`) -/

/-- Target operating system, standing for the `cfg(target_os = ...)` blocks. -/
inductive OS
  | windows
  | macos
  | linux
deriving DecidableEq

/-- Checks whether `start` is a character-by-character leading segment of `l`. -/
def charsLead : List Char → List Char → Bool
  | [], _ => true
  | _ :: _, [] => false
  | a :: as, b :: bs => a == b && charsLead as bs

/-- Checks whether `needle` occurs contiguously inside `hay`. -/
def charsSub (needle : List Char) : List Char → Bool
  | [] => needle.isEmpty
  | b :: bs => charsLead needle (b :: bs) || charsSub needle bs

/-- String containment check, modelling Rust's `str::contains`. -/
def strHasSub (hay needle : String) : Bool :=
  charsSub needle.data hay.data

/-- The well-known Windows install paths probed in order (`src/browser.rs:169-174`). -/
def windowsInstallPaths : List String :=
  ["C:\\Program Files\\Google\\Chrome\\Application\\chrome.exe",
   "C:\\Program Files (x86)\\Google\\Chrome\\Application\\chrome.exe",
   "C:\\Program Files\\Microsoft\\Edge\\Application\\msedge.exe",
   "C:\\Program Files (x86)\\Microsoft\\Edge\\Application\\msedge.exe"]

/-- The registry keys probed in order on Windows (`src/browser.rs:182-185`). -/
def windowsRegKeys : List String :=
  ["SOFTWARE\\Microsoft\\Windows\\CurrentVersion\\App Paths\\chrome.exe",
   "SOFTWARE\\Microsoft\\Windows\\CurrentVersion\\App Paths\\msedge.exe"]

/-- The well-known macOS install paths probed in order (`src/browser.rs:199-202`). -/
def macosInstallPaths : List String :=
  ["/Applications/Google Chrome.app/Contents/MacOS/Google Chrome",
   "/Applications/Microsoft Edge.app/Contents/MacOS/Microsoft Edge"]

/-- The well-known Linux install paths probed in order (`src/browser.rs:212-217`). -/
def linuxInstallPaths : List String :=
  ["/usr/bin/google-chrome",
   "/usr/bin/google-chrome-stable",
   "/usr/bin/chromium",
   "/usr/bin/chromium-browser"]

/-- The binary names looked up on `PATH` via `which` (`src/browser.rs:226-233`). -/
def whichApps : List String :=
  ["google-chrome-stable",
   "chromium",
   "chromium-browser",
   "chrome",
   "msedge",
   "microsoft-edge"]

/-- The per-OS well-known install path list selected by the `cfg` blocks. -/
def installPathsOf : OS → List String
  | .windows => windowsInstallPaths
  | .macos => macosInstallPaths
  | .linux => linuxInstallPaths

/-- Oracle for the host environment consulted by `find_chrome`: the target OS,
filesystem existence, the `CHROME` environment variable, registry default
values (`open_subkey` plus `get_value` fused), `which` lookups, and
`fs::canonicalize` results (`none` when canonicalization fails). -/
structure FsEnv where
  os : OS
  pathExists : String → Bool
  chromeEnv : Option String
  regValue : String → Option String
  whichLookup : String → Option String
  canonicalize : String → Option String

/-- Errors returned by `find_chrome`: a supplied custom path that does not
exist (`src/browser.rs:158`), or no source matching (`src/browser.rs:256-258`). -/
inductive FindErr
  | customPathMissing
  | executableNotFound
deriving DecidableEq

/-- Whether a path string lies under a flatpak or snap mount point
(`src/browser.rs:238` and `src/browser.rs:247`). -/
def sandboxedPath (s : String) : Bool :=
  strHasSub s "/var/lib/flatpak" || strHasSub s "/snap/"

/-- One iteration of the `which` loop body (`src/browser.rs:234-253`): a `which`
hit is skipped when its direct path, or its canonicalized path when
canonicalization succeeds, lies under a flatpak or snap mount point; otherwise
the direct (non-canonicalized) path is returned. -/
def whichFiltered (e : FsEnv) (app : String) : Option String :=
  match e.whichLookup app with
  | none => none
  | some p =>
    if sandboxedPath p then none
    else
      match e.canonicalize p with
      | some r => if sandboxedPath r then none else some p
      | none => some p

/-- The Windows registry probe (`src/browser.rs:186-194`): for each key in
order, a readable default value is returned when a file exists at it. -/
def regProbe (e : FsEnv) : Option String :=
  windowsRegKeys.findSome? fun k =>
    match e.regValue k with
    | some v => if e.pathExists v then some v else none
    | none => none

/-- `Browser::find_chrome` (`src/browser.rs:152-259`): custom path (returned if
it exists, immediate error otherwise), then the `CHROME` environment variable
(returned without any existence check), then the per-OS install paths, then —
still inside the `cfg(target_os = "windows")` block, hence before the `which`
loop — the registry probe, then the `which` lookup with the flatpak/snap
filter, and finally the not-found error. -/
def findChrome (customPath : Option String) (e : FsEnv) : Except FindErr String :=
  match customPath with
  | some path =>
    if e.pathExists path then .ok path else .error .customPathMissing
  | none =>
    match e.chromeEnv with
    | some p => .ok p
    | none =>
      match (installPathsOf e.os).find? e.pathExists with
      | some p => .ok p
      | none =>
        match (if e.os = OS.windows then regProbe e else none) with
        | some v => .ok v
        | none =>
          match whichApps.findSome? (whichFiltered e) with
          | some p => .ok p
          | none => .error .executableNotFound

/-- Resolution order as the claim states it (the same sources, but with the
`PATH` lookup tried before the platform registry).  This definition follows
the specification's words and exists only to be compared with `findChrome`. -/
def findChromeClaimOrder (customPath : Option String) (e : FsEnv) : Except FindErr String :=
  match customPath with
  | some path =>
    if e.pathExists path then .ok path else .error .customPathMissing
  | none =>
    match e.chromeEnv with
    | some p => .ok p
    | none =>
      match (installPathsOf e.os).find? e.pathExists with
      | some p => .ok p
      | none =>
        match whichApps.findSome? (whichFiltered e) with
        | some p => .ok p
        | none =>
          match (if e.os = OS.windows then regProbe e else none) with
          | some v => .ok v
          | none => .error .executableNotFound

/-! ## Browser launch (`src/browser.rs:95-149`, `Browser::launch`) -/

/-- Cleanup actions with externally visible effect that can run while `launch`
unwinds or a `Browser` is torn down: `CustomTempDir::drop` removes the profile
directory (`src/browser.rs:40-50`); `BrowserProcess::drop` kills and then waits
on the child (`src/browser.rs:57-63`).  Dropping a bare `std::process::Child`
performs no action. -/
inductive CleanupAct
  | removeTempDir
  | killChild
  | waitChild
deriving DecidableEq

/-- Errors produced by the successive steps of `launch`. -/
inductive LaunchErr
  | tempDirFailed
  | chromeNotFound (e : FindErr)
  | noAvailablePort
  | spawnFailed
  | noStderr
  | wsUrlNotFound
  | connectFailed
deriving DecidableEq

/-- Outcome oracle for one run of `launch`: whether the temp profile directory
is created, the environment `find_chrome` consults, the optional custom
executable path, whether a port binds, whether `spawn` succeeds, whether the
child exposes a stderr pipe, the debug WebSocket URL extracted from stderr
(`none` when the stream ends without a match), and whether the WebSocket
connection in `Transport::new` succeeds. -/
structure LaunchWorld where
  tempDirOk : Bool
  fs : FsEnv
  customPath : Option String
  portAvailable : Bool
  spawnOk : Bool
  stderrPresent : Bool
  wsUrl : Option String
  connectOk : Bool

/-- `Browser::launch` (`src/browser.rs:95-149`) as a function of its outcome
oracle, returning the result and the cleanup actions performed before
returning.  The trace mirrors Rust drop semantics on each early `?` return:
`temp: CustomTempDir` is created first and its drop removes the directory;
`child` is a bare `std::process::Child`, whose drop does nothing — a
`BrowserProcess` (whose drop kills) is only constructed in the final `Ok`
expression, after `wait_for_ws` and `Transport::new` have both succeeded. -/
def launch (w : LaunchWorld) : Except LaunchErr Unit × List CleanupAct :=
  if !w.tempDirOk then (.error .tempDirFailed, [])
  else
    match findChrome w.customPath w.fs with
    | .error fe => (.error (.chromeNotFound fe), [.removeTempDir])
    | .ok _ =>
      if !w.portAvailable then (.error .noAvailablePort, [.removeTempDir])
      else if !w.spawnOk then (.error .spawnFailed, [.removeTempDir])
      else if !w.stderrPresent then (.error .noStderr, [.removeTempDir])
      else
        match w.wsUrl with
        | none => (.error .wsUrlNotFound, [.removeTempDir])
        | some _ =>
          if !w.connectOk then (.error .connectFailed, [.removeTempDir])
          else (.ok (), [])

/-- The cleanup sequence that runs when a constructed `BrowserProcess` is
dropped (`src/browser.rs:57-63` then `src/browser.rs:40-50`): kill, wait, then
remove the profile directory.  Only this path — never a failing `launch` —
kills the child. -/
def browserProcessDropActs : List CleanupAct :=
  [.killChild, .waitChild, .removeTempDir]

/-! ## Outgoing-id counter (`src/transport.rs:16-20`, `next_id`) -/

/-- The `usize` modulus: the atomic counter is 64 bits wide and `fetch_add`
wraps. -/
def usizeMod : Nat := 2 ^ 64

/-- `next_id` (`src/transport.rs:18-20`): one atomic `fetch_add(1)` on
`GLOBAL_ID_COUNTER` followed by `+ 1` on the old value.  Input is the current
counter value; output is the returned id and the new counter value, both
reduced modulo `2 ^ 64` as wrapping `usize` arithmetic dictates. -/
def nextIdStep (c : Nat) : Nat × Nat :=
  ((c + 1) % usizeMod, (c + 1) % usizeMod)

/-- The counter value after `n` calls of `next_id`, starting from the static
initializer `AtomicUsize::new(0)`. -/
def idCounterAfter : Nat → Nat
  | 0 => 0
  | n + 1 => (nextIdStep (idCounterAfter n)).2

/-- The id returned by call number `n` (zero-indexed) of `next_id`. -/
def idOfCall (n : Nat) : Nat :=
  (nextIdStep (idCounterAfter n)).1

/-! ## Transport actor correlation state (`src/transport.rs:47-123`) -/

/-- The actor's two correlation tables (`src/transport.rs:48-49`): the
pending-request table `id → waiter` and the event-listener table
`(sessionId, method) → waiters`.  Oneshot senders are modelled as numeric
tokens; the `HashMap`s are modelled as total functions with `none` / `[]`
standing for an absent key. -/
structure ActorState where
  pending : Nat → Option Nat
  listeners : String × String → List Nat

/-- The actor's initial state (`src/transport.rs:137-141`). -/
def ActorState.empty : ActorState :=
  { pending := fun _ => none, listeners := fun _ => [] }

/-- The embedded-event branch of the actor loop (`src/transport.rs:75-83`):
when a relayed frame decodes to an event `method` on `session_id`, the entry
for `(sessionId, method)` is removed from the event-listener table and every
sender formerly stored under it is signalled.  Returns the new state and the
list of woken waiters (empty when the key was absent: nothing is queued). -/
def deliverEvent (st : ActorState) (session method : String) : ActorState × List Nat :=
  let key := (session, method)
  ({ st with listeners := fun k => if k = key then [] else st.listeners k },
   st.listeners key)

/-- The `WaitForEvent` command branch (`src/transport.rs:105-107`): the waiter
is appended under `(sessionId, method)` via `entry(..).or_default().push(tx)`. -/
def registerWaiter (st : ActorState) (session method : String) (tx : Nat) : ActorState :=
  let key := (session, method)
  { st with listeners := fun k => if k = key then st.listeners key ++ [tx] else st.listeners k }

/-- The `ListenTargetMessage` command branch (`src/transport.rs:102-104`): the
waiter is stored in the pending-request table under the given id. -/
def registerPending (st : ActorState) (id tx : Nat) : ActorState :=
  { st with pending := fun i => if i = id then some tx else st.pending i }

/-- The top-level-response and embedded-response branches
(`src/transport.rs:61-74`): the waiter stored under the frame's id, if any, is
removed from the pending-request table and signalled. -/
def deliverResponse (st : ActorState) (id : Nat) : ActorState × Option Nat :=
  match st.pending id with
  | some tx => ({ st with pending := fun i => if i = id then none else st.pending i }, some tx)
  | none => (st, none)

/-! ## Navigation message traces (`src/lib.rs:1096-1119`, `Tab::goto`) -/

/-- Messages a caller can place on the transport actor's command channel
(`src/transport.rs:23-28`), identified by the data relevant to correlation. -/
inductive ActorMsg
  | request (id : Nat)
  | listenTarget (id : Nat)
  | waitForEvent (session method : String)
deriving DecidableEq

/-- The actor-channel messages produced by one `send_and_get_msg` /
`Tab::send_cmd` round trip with counter state `c`: `msg_id = next_id()` is
allocated first for the inner command, the wrapper `Target.sendMessageToTarget`
call allocates its own outer id inside `transport.send`, and `try_join!` polls
the send future first, so the `Request` enters the channel before the
`ListenTargetMessage` for the inner id.  Returns the messages and the new
counter state. -/
def sendCmdMsgs (c : Nat) : List ActorMsg × Nat :=
  let innerId := (nextIdStep c).1
  let c1 := (nextIdStep c).2
  let outerId := (nextIdStep c1).1
  let c2 := (nextIdStep c1).2
  ([.request outerId, .listenTarget innerId], c2)

/-- `Tab::goto` (`src/lib.rs:1096-1110`) as the ordered list of messages it
causes to be sent to the transport actor, given counter state `c` and the
tab's session id.  The source calls `send_cmd("Page.enable", ..)`, then binds
`load_event_future = transport.wait_for_event(session, "Page.loadEventFired")`
— an async fn call, which builds a future but runs none of its body — then
completes the `Page.navigate` round trip via `send_and_get_msg`, and only then
awaits `load_event_future`, at which point the `WaitForEvent` registration is
actually sent to the actor. -/
def gotoMsgs (c : Nat) (session : String) : List ActorMsg × Nat :=
  let (enableMsgs, c1) := sendCmdMsgs c
  let (navMsgs, c2) := sendCmdMsgs c1
  (enableMsgs ++ navMsgs ++ [.waitForEvent session "Page.loadEventFired"], c2)

/-- `Tab::goto_no_wait` (`src/lib.rs:1113-1119`): a single `Page.navigate`
round trip, with no load-event registration at all. -/
def gotoNoWaitMsgs (c : Nat) (_session : String) : List ActorMsg × Nat :=
  sendCmdMsgs c

/-! ## Per-call timeouts (`src/transport.rs:149-206`) -/

/-- What a oneshot reply channel eventually does: deliver a value or report
that its sender was dropped. -/
inductive ChanEvent (α : Type)
  | value (v : α)
  | senderDropped
deriving DecidableEq

/-- Outcome of one caller-facing transport call. -/
inductive CallOutcome (α : Type)
  | ok (v : α)
  | actorDropped
  | timedOut
  | channelClosed
deriving DecidableEq

/-- The timeout bound used by every caller-facing transport call:
`Duration::from_secs(30)`. -/
def timeoutSecs : Nat := 30

/-- `tokio::time::timeout(30s, rx)` over a oneshot receiver whose behaviour is
given by `arrival`: `some (t, ev)` means the channel resolves with `ev` at
time `t`, `none` means it never resolves.  Returns the outcome and the time
the caller spends suspended, which the timeout caps at `timeoutSecs`. -/
def awaitWithTimeout {α : Type} (arrival : Option (Nat × ChanEvent α)) :
    CallOutcome α × Nat :=
  match arrival with
  | none => (.timedOut, timeoutSecs)
  | some (t, ev) =>
    if t ≤ timeoutSecs then
      (match ev with
       | .value v => .ok v
       | .senderDropped => .channelClosed, t)
    else (.timedOut, timeoutSecs)

/-- Behaviour of the first await in each caller-facing transport call:
`self.tx.send(..).await` on the capacity-100 mpsc command channel
(`src/transport.rs:134`).  This await is *not* under any timeout: it suspends
until the actor makes capacity available (`accepted = true` after `elapsed`
time units) or the actor is found dropped (`accepted = false` after `elapsed`
time units).  While the channel is full and the actor is alive but stuck —
for instance blocked in `ws_sink.send` against a peer that stops reading —
the suspension lasts as long as the blockage, so `elapsed` ranges over all of
`Nat`. -/
structure ChannelSendPhase where
  elapsed : Nat
  accepted : Bool
deriving DecidableEq

/-- `Transport::send` (`src/transport.rs:149-159`): first awaits
`tx.send(TransportMessage::Request ..)` on the command channel (unbounded,
error when the actor is dropped), then awaits the oneshot reply under the
30-second `tokio::time::timeout`.  The returned time is the caller's total
suspension: the channel-send phase plus the timeout-bounded reply wait. -/
def transportSend {α : Type} (chan : ChannelSendPhase)
    (arrival : Option (Nat × ChanEvent α)) : CallOutcome α × Nat :=
  if chan.accepted then
    ((awaitWithTimeout arrival).1, chan.elapsed + (awaitWithTimeout arrival).2)
  else (.actorDropped, chan.elapsed)

/-- `Transport::get_target_msg` (`src/transport.rs:161-171`): same two awaits
as `send` — the unbounded command-channel send, then the 30-second-bounded
reply wait — for a pre-registered embedded-reply waiter. -/
def transportGetTargetMsg {α : Type} (chan : ChannelSendPhase)
    (arrival : Option (Nat × ChanEvent α)) : CallOutcome α × Nat :=
  if chan.accepted then
    ((awaitWithTimeout arrival).1, chan.elapsed + (awaitWithTimeout arrival).2)
  else (.actorDropped, chan.elapsed)

/-- `Transport::wait_for_event` (`src/transport.rs:190-206`): same two awaits —
the unbounded command-channel send registering the waiter, then the
30-second-bounded wait for its unit signal. -/
def transportWaitForEvent (chan : ChannelSendPhase)
    (arrival : Option (Nat × ChanEvent Unit)) : CallOutcome Unit × Nat :=
  if chan.accepted then
    ((awaitWithTimeout arrival).1, chan.elapsed + (awaitWithTimeout arrival).2)
  else (.actorDropped, chan.elapsed)

/-! ## Concrete environments used to settle the claims -/

/-- Options for a PNG element capture with background omission requested. -/
def optsOmitPng : CaptureOptions := CaptureOptions.rawPng.withOmitBackground true

/-- A run in which every step up to the capture succeeds and the capture
round trip itself fails. -/
def worldCaptureFails : ShotWorld :=
  { viewportOk := true, boxOk := true, border := fun _ => some 0,
    bgOverrideOk := true, activateOk := true, captureOk := false,
    imageData := some "AAAA" }

/-- A run in which every round trip succeeds but the capture reply carries no
`result.data` payload. -/
def worldNoImageData : ShotWorld :=
  { viewportOk := true, boxOk := true, border := fun _ => some 0,
    bgOverrideOk := true, activateOk := true, captureOk := true,
    imageData := none }

/-- A Windows host on which the registry names an existing browser executable
and the `PATH` lookup would also find one. -/
def envRegistryVsPath : FsEnv :=
  { os := .windows
    pathExists := fun s => s == "C:\\FromRegistry\\chrome.exe"
    chromeEnv := none
    regValue := fun k =>
      if k == "SOFTWARE\\Microsoft\\Windows\\CurrentVersion\\App Paths\\chrome.exe"
      then some "C:\\FromRegistry\\chrome.exe" else none
    whichLookup := fun a => if a == "chrome" then some "C:\\FromPath\\chrome.exe" else none
    canonicalize := fun _ => none }

/-- A Linux host on which only the `CHROME` environment variable is set, and
the path it names does not exist. -/
def envChromeVarOnly : FsEnv :=
  { os := .linux, pathExists := fun _ => false,
    chromeEnv := some "/nonexistent/chrome",
    regValue := fun _ => none, whichLookup := fun _ => none,
    canonicalize := fun _ => none }

/-- A launch in which the executable resolves via `CHROME`, the process spawns,
and the stderr stream ends without a devtools line, so `wait_for_ws` fails. -/
def worldWsExtractionFails : LaunchWorld :=
  { tempDirOk := true, fs := envChromeVarOnly, customPath := none,
    portAvailable := true, spawnOk := true, stderrPresent := true,
    wsUrl := none, connectOk := true }

/-- A launch in which the executable resolves via `CHROME` but the spawn of the
named path fails. -/
def worldSpawnFails : LaunchWorld :=
  { tempDirOk := true, fs := envChromeVarOnly, customPath := none,
    portAvailable := true, spawnOk := false, stderrPresent := true,
    wsUrl := none, connectOk := true }

/-!
## Theorems
-/

theorem idCounterAfter_eq (n : Nat) : idCounterAfter n = n % usizeMod := by
  induction n with
  | zero => rfl
  | succ k ih =>
    have h1 : (1 : Nat) % usizeMod = 1 := Nat.mod_eq_of_lt (by norm_num [usizeMod])
    calc idCounterAfter (k + 1) = (idCounterAfter k + 1) % usizeMod := rfl
      _ = (k % usizeMod + 1 % usizeMod) % usizeMod := by rw [ih, h1]
      _ = (k + 1) % usizeMod := (Nat.add_mod k 1 usizeMod).symm

theorem idOfCall_eq (n : Nat) : idOfCall n = (n + 1) % usizeMod := by
  have h1 : (1 : Nat) % usizeMod = 1 := Nat.mod_eq_of_lt (by norm_num [usizeMod])
  calc idOfCall n = (idCounterAfter n + 1) % usizeMod := rfl
    _ = (n % usizeMod + 1 % usizeMod) % usizeMod := by rw [idCounterAfter_eq, h1]
    _ = (n + 1) % usizeMod := (Nat.add_mod n 1 usizeMod).symm

/-- Claim C4: as long as the 64-bit counter does not wrap (fewer than
`2 ^ 64` ids have been drawn), every `next_id` call returns a value strictly
greater than every previously returned one, and distinct calls return distinct
ids, so top-level command ids and ids for inner commands embedded in target
envelopes can never collide in the single pending-request table. -/
theorem next_id_monotone_unique :
    (∀ i j : Nat, i < j → j + 1 < usizeMod → idOfCall i < idOfCall j) ∧
    (∀ i j : Nat, i ≠ j → i + 1 < usizeMod → j + 1 < usizeMod → idOfCall i ≠ idOfCall j) := by
  have key : ∀ n : Nat, n + 1 < usizeMod → idOfCall n = n + 1 := by
    intro n h
    rw [idOfCall_eq]
    exact Nat.mod_eq_of_lt h
  constructor
  · intro i j hij hj
    rw [key i (by omega), key j hj]
    omega
  · intro i j hne hi hj
    rw [key i hi, key j hj]
    omega

/-- Witness for C4 at concrete call indices. -/
theorem next_id_monotone_unique_witness :
    idOfCall 0 < idOfCall 1 ∧ idOfCall 0 ≠ idOfCall 5 :=
  ⟨next_id_monotone_unique.1 0 1 (by norm_num) (by norm_num [usizeMod]),
   next_id_monotone_unique.2 0 5 (by norm_num) (by norm_num [usizeMod]) (by norm_num [usizeMod])⟩

/-- Claim C5: processing one embedded event frame with session `s` and method
`m` wakes exactly the waiters registered under `(s, m)` and removes the key
from the event-listener table; a waiter that was not registered before the
event is not woken by it, and one registered afterwards sits alone in a fresh
pending entry — the past occurrence is not queued anywhere. -/
theorem event_delivery_wakes_all_clears_key :
    ∀ (st : ActorState) (s m : String),
      (deliverEvent st s m).2 = st.listeners (s, m) ∧
      (deliverEvent st s m).1.listeners (s, m) = [] ∧
      (∀ tx : Nat, tx ∉ st.listeners (s, m) → tx ∉ (deliverEvent st s m).2) ∧
      (∀ tx : Nat,
        (registerWaiter (deliverEvent st s m).1 s m tx).listeners (s, m) = [tx]) := by
  intro st s m
  refine ⟨rfl, by simp [deliverEvent], ?_, ?_⟩
  · intro tx h
    simpa [deliverEvent] using h
  · intro tx
    simp [registerWaiter, deliverEvent]

/-- Witness for C5: two waiters registered under a key are both woken by one
delivery, a third unregistered token is not, and a late registration yields a
singleton pending entry. -/
theorem event_delivery_wakes_all_clears_key_witness :
    (deliverEvent (registerWaiter (registerWaiter ActorState.empty "s" "m" 1) "s" "m" 2)
        "s" "m").2 = [1, 2] ∧
    3 ∉ (deliverEvent (registerWaiter (registerWaiter ActorState.empty "s" "m" 1) "s" "m" 2)
        "s" "m").2 ∧
    (registerWaiter
        (deliverEvent (registerWaiter (registerWaiter ActorState.empty "s" "m" 1) "s" "m" 2)
          "s" "m").1 "s" "m" 7).listeners ("s", "m") = [7] := by
  have h := event_delivery_wakes_all_clears_key
    (registerWaiter (registerWaiter ActorState.empty "s" "m" 1) "s" "m" 2) "s" "m"
  refine ⟨?_, h.2.2.1 3 ?_, h.2.2.2 7⟩
  · rw [h.1]
    simp [registerWaiter, ActorState.empty]
  · simp [registerWaiter, ActorState.empty]

theorem awaitWithTimeout_elapsed_le {α : Type} (r : Option (Nat × ChanEvent α)) :
    (awaitWithTimeout r).2 ≤ timeoutSecs := by
  rcases r with _ | ⟨t, ev⟩
  · simp [awaitWithTimeout]
  · by_cases h : t ≤ timeoutSecs <;> simp [awaitWithTimeout, h]

theorem transportGetTargetMsg_eq_send {α : Type} (c : ChannelSendPhase)
    (r : Option (Nat × ChanEvent α)) :
    transportGetTargetMsg c r = transportSend c r := rfl

theorem transportWaitForEvent_eq_send (c : ChannelSendPhase)
    (u : Option (Nat × ChanEvent Unit)) :
    transportWaitForEvent c u = transportSend c u := rfl

/-- Counterexample to claim C6 as stated: each transport call's first await —
`tx.send(..)` on the capacity-100 command channel — is outside the timeout.
With the channel full and the actor stuck in a socket write, the command is
only accepted after 31 time units; the browser then never replies, so the
timeout fires after 30 more: the caller was suspended for 61 time units in a
single `send` (and likewise in `get_target_msg` and `wait_for_event`), beyond
the 30-second bound the claim asserts for every call. -/
theorem transport_send_phase_exceeds_timeout_cex :
    (transportSend (⟨31, true⟩ : ChannelSendPhase)
        (none : Option (Nat × ChanEvent Unit))).2 = 61 ∧
    timeoutSecs < (transportSend (⟨31, true⟩ : ChannelSendPhase)
        (none : Option (Nat × ChanEvent Unit))).2 ∧
    (transportSend (⟨31, true⟩ : ChannelSendPhase)
        (none : Option (Nat × ChanEvent Unit))).1 = .timedOut ∧
    (transportGetTargetMsg (⟨31, true⟩ : ChannelSendPhase)
        (none : Option (Nat × ChanEvent Unit))).2 = 61 ∧
    (transportWaitForEvent ⟨31, true⟩ none).2 = 61 := by
  refine ⟨rfl, by decide, rfl, rfl, rfl⟩

/-- Claim C6 (amended): in each caller-facing transport call (`send`,
`get_target_msg`, `wait_for_event`) only the oneshot reply wait is under the
30-second timeout.  Once the command has been accepted onto the actor's
command channel the remaining suspension is at most 30 seconds, and the call
always returns a definite outcome: a result, a timeout exactly at the bound
when the browser never replies, a channel-closed error, or an actor-dropped
error when the command channel's receiver is gone.  The total suspension is
therefore bounded only by the channel-send duration plus 30 seconds — the
channel-send phase itself carries no timeout. -/
theorem transport_reply_wait_timeout_bounded :
    ∀ (α : Type) (c : ChannelSendPhase) (r : Option (Nat × ChanEvent α))
      (u : Option (Nat × ChanEvent Unit)),
      (transportSend c r).2 ≤ c.elapsed + timeoutSecs ∧
      (transportGetTargetMsg c r).2 ≤ c.elapsed + timeoutSecs ∧
      (transportWaitForEvent c u).2 ≤ c.elapsed + timeoutSecs ∧
      transportSend (⟨0, true⟩ : ChannelSendPhase) (none : Option (Nat × ChanEvent α)) =
        (.timedOut, timeoutSecs) ∧
      transportGetTargetMsg (⟨0, true⟩ : ChannelSendPhase)
        (none : Option (Nat × ChanEvent α)) = (.timedOut, timeoutSecs) ∧
      transportWaitForEvent ⟨0, true⟩ none = (.timedOut, timeoutSecs) ∧
      transportSend (⟨c.elapsed, false⟩ : ChannelSendPhase) r =
        (.actorDropped, c.elapsed) := by
  intro α c r u
  have hb : ∀ (β : Type) (c' : ChannelSendPhase) (o : Option (Nat × ChanEvent β)),
      (transportSend c' o).2 ≤ c'.elapsed + timeoutSecs := by
    intro β c' o
    unfold transportSend
    rcases hc : c'.accepted
    · simp [hc]
    · simp only [hc, if_pos]
      exact Nat.add_le_add_left (awaitWithTimeout_elapsed_le o) _
  refine ⟨hb α c r, ?_, ?_, rfl, rfl, rfl, rfl⟩
  · rw [transportGetTargetMsg_eq_send]
    exact hb α c r
  · rw [transportWaitForEvent_eq_send]
    exact hb Unit c u

/-- Claim C8: the clip sent in the element capture request is the border-box
rectangle — `x`, `y` from the first border-quad point, `width = border[2] -
border[0]`, `height = border[5] - border[1]` — its `scale` field is always
`1.0`, and for a fixed border quad the clip is unchanged by the viewport
device-scale-factor. -/
theorem clip_is_border_box_at_unit_scale :
    ∀ (opts : CaptureOptions) (border : Nat → Option ℚ) (v : Viewport) (s s' : ℚ),
      ((buildCaptureParams opts border).clip.x = borderAt border 0 ∧
       (buildCaptureParams opts border).clip.y = borderAt border 1 ∧
       (buildCaptureParams opts border).clip.width =
         borderAt border 2 - borderAt border 0 ∧
       (buildCaptureParams opts border).clip.height =
         borderAt border 5 - borderAt border 1 ∧
       (buildCaptureParams opts border).clip.scale = 1) ∧
      (buildCaptureParams (opts.withViewport (v.withDeviceScaleFactor s)) border).clip =
        (buildCaptureParams (opts.withViewport (v.withDeviceScaleFactor s')) border).clip := by
  intro opts border v s s'
  exact ⟨⟨rfl, rfl, rfl, rfl, rfl⟩, rfl⟩

/-- Claim C9: the capture request carries a `quality` field exactly when the
format is JPEG or WebP, that field defaults to `90` when no quality was
configured, `with_quality` clamps the stored value to at most `100`, and for
PNG no quality field is ever sent. -/
theorem quality_policy :
    (∀ (opts : CaptureOptions) (border : Nat → Option ℚ),
        (buildCaptureParams opts border).quality.isSome ↔
          opts.format = ImageFormat.Jpeg ∨ opts.format = ImageFormat.WebP) ∧
    (∀ (opts : CaptureOptions) (border : Nat → Option ℚ),
        opts.quality = none →
        (opts.format = ImageFormat.Jpeg ∨ opts.format = ImageFormat.WebP) →
        (buildCaptureParams opts border).quality = some 90) ∧
    (∀ (opts : CaptureOptions) (q : Nat),
        (opts.withQuality q).quality = some (min q 100) ∧ min q 100 ≤ 100) ∧
    (∀ (opts : CaptureOptions) (border : Nat → Option ℚ),
        opts.format = ImageFormat.Png → (buildCaptureParams opts border).quality = none) := by
  refine ⟨?_, ?_, ?_, ?_⟩
  · intro opts border
    rcases hf : opts.format <;> simp [buildCaptureParams, hf]
  · intro opts border hq hf
    rcases hf with hf | hf <;> simp [buildCaptureParams, hf, hq]
  · intro opts q
    exact ⟨rfl, Nat.min_le_right q 100⟩
  · intro opts border hf
    simp [buildCaptureParams, hf]

/-- Witness for C9 at concrete options: default JPEG gets quality `90`, a
requested quality of `255` is stored clamped to `100`, and raw PNG carries no
quality field. -/
theorem quality_policy_witness :
    (buildCaptureParams CaptureOptions.new (fun _ => none)).quality = some 90 ∧
    (CaptureOptions.new.withQuality 255).quality = some 100 ∧
    (buildCaptureParams CaptureOptions.rawPng (fun _ => none)).quality = none := by
  refine ⟨quality_policy.2.1 CaptureOptions.new (fun _ => none) rfl (Or.inl rfl), ?_,
    quality_policy.2.2.2 CaptureOptions.rawPng (fun _ => none) rfl⟩
  have h := (quality_policy.2.2.1 CaptureOptions.new 255).1
  rw [h]
  norm_num

/-- Claim C10: with no custom path and `CHROME` set, `find_chrome` returns the
variable's value for every environment — in particular for environments in
which no file exists at that path — and never reaches the install paths, the
registry or the `PATH` lookup; a dead `CHROME` path then surfaces in `launch`
as a spawn failure, not as executable-not-found. -/
theorem chrome_env_used_unchecked :
    (∀ (e : FsEnv) (s : String), e.chromeEnv = some s → findChrome none e = .ok s) ∧
    (∀ (w : LaunchWorld) (s : String),
        w.tempDirOk = true → w.customPath = none → w.fs.chromeEnv = some s →
        w.portAvailable = true → w.spawnOk = false →
        launch w = (.error .spawnFailed, [.removeTempDir])) := by
  constructor
  · intro e s h
    simp [findChrome, h]
  · intro w s ht hc hf hp hs
    simp [launch, ht, hp, hs, hc, findChrome, hf]

/-- Witness for C10: the `CHROME` value is returned although `pathExists` is
constantly false, and the corresponding launch fails at spawn. -/
theorem chrome_env_used_unchecked_witness :
    findChrome none envChromeVarOnly = .ok "/nonexistent/chrome" ∧
    launch worldSpawnFails = (.error .spawnFailed, [.removeTempDir]) :=
  ⟨chrome_env_used_unchecked.1 envChromeVarOnly "/nonexistent/chrome" rfl,
   chrome_env_used_unchecked.2 worldSpawnFails "/nonexistent/chrome" rfl rfl rfl rfl rfl⟩

/-- Counterexample to claim C7 as stated: on a Windows host where both the
registry and the `PATH` lookup name an executable, `find_chrome` returns the
registry hit, while the claim's order — `PATH` lookup before the registry —
would return the `PATH` hit. -/
theorem find_chrome_order_cex :
    findChrome none envRegistryVsPath = .ok "C:\\FromRegistry\\chrome.exe" ∧
    findChromeClaimOrder none envRegistryVsPath = .ok "C:\\FromPath\\chrome.exe" ∧
    findChrome none envRegistryVsPath ≠ findChromeClaimOrder none envRegistryVsPath := by
  have h1 : findChrome none envRegistryVsPath = .ok "C:\\FromRegistry\\chrome.exe" := rfl
  have h2 : findChromeClaimOrder none envRegistryVsPath = .ok "C:\\FromPath\\chrome.exe" := rfl
  refine ⟨h1, h2, ?_⟩
  rw [h1, h2]
  intro h
  exact absurd (Except.ok.inj h) (by decide)

/-- Claim C7 (amended): `find_chrome` tries its sources in the fixed order
custom path, `CHROME` variable, per-OS install paths, Windows registry, `PATH`
lookup with the flatpak/snap exclusion — the registry, where applicable, is
consulted before the `PATH` lookup, not after it — returning the first match
and an executable-not-found error when nothing matches; a supplied custom path
that does not exist yields an immediate error. -/
theorem find_chrome_resolution_order :
    (∀ (e : FsEnv) (p : String), e.pathExists p = true → findChrome (some p) e = .ok p) ∧
    (∀ (e : FsEnv) (p : String), e.pathExists p = false →
        findChrome (some p) e = .error .customPathMissing) ∧
    (∀ (e : FsEnv) (s : String), e.chromeEnv = some s → findChrome none e = .ok s) ∧
    (∀ (e : FsEnv) (p : String), e.chromeEnv = none →
        (installPathsOf e.os).find? e.pathExists = some p →
        findChrome none e = .ok p) ∧
    (∀ (e : FsEnv) (v : String), e.chromeEnv = none →
        (installPathsOf e.os).find? e.pathExists = none →
        e.os = OS.windows → regProbe e = some v →
        findChrome none e = .ok v) ∧
    (∀ (e : FsEnv) (p : String), e.chromeEnv = none →
        (installPathsOf e.os).find? e.pathExists = none →
        (e.os = OS.windows → regProbe e = none) →
        whichApps.findSome? (whichFiltered e) = some p →
        findChrome none e = .ok p) ∧
    (∀ (e : FsEnv), e.chromeEnv = none →
        (installPathsOf e.os).find? e.pathExists = none →
        (e.os = OS.windows → regProbe e = none) →
        whichApps.findSome? (whichFiltered e) = none →
        findChrome none e = .error .executableNotFound) := by
  refine ⟨?_, ?_, ?_, ?_, ?_, ?_, ?_⟩
  · intro e p h
    simp [findChrome, h]
  · intro e p h
    simp [findChrome, h]
  · intro e s h
    simp [findChrome, h]
  · intro e p h1 h2
    simp [findChrome, h1, h2]
  · intro e v h1 h2 h3 h4
    rw [h3] at h2
    simp [findChrome, h1, h2, h3, h4]
  · intro e p h1 h2 h3 h4
    rcases hos : e.os with _ | _ | _
    · rw [hos] at h2
      simp [findChrome, h1, h2, hos, h3 hos, h4]
    · rw [hos] at h2
      simp [findChrome, h1, h2, hos, h4]
    · rw [hos] at h2
      simp [findChrome, h1, h2, hos, h4]
  · intro e h1 h2 h3 h4
    rcases hos : e.os with _ | _ | _
    · rw [hos] at h2
      simp [findChrome, h1, h2, hos, h3 hos, h4]
    · rw [hos] at h2
      simp [findChrome, h1, h2, hos, h4]
    · rw [hos] at h2
      simp [findChrome, h1, h2, hos, h4]

/-- Witness for C7 (amended) at the concrete Windows host: the registry hit
wins over the `PATH` hit, an existing custom path is returned, and a missing
custom path errors immediately. -/
theorem find_chrome_resolution_order_witness :
    findChrome none envRegistryVsPath = .ok "C:\\FromRegistry\\chrome.exe" ∧
    findChrome (some "C:\\FromRegistry\\chrome.exe") envRegistryVsPath =
      .ok "C:\\FromRegistry\\chrome.exe" ∧
    findChrome (some "D:\\absent.exe") envRegistryVsPath = .error .customPathMissing :=
  ⟨find_chrome_resolution_order.2.2.2.2.1 envRegistryVsPath "C:\\FromRegistry\\chrome.exe"
      rfl (by decide) rfl (by decide),
   find_chrome_resolution_order.1 envRegistryVsPath "C:\\FromRegistry\\chrome.exe" (by decide),
   find_chrome_resolution_order.2.1 envRegistryVsPath "D:\\absent.exe" (by decide)⟩

/-- Counterexample to claim C2 as stated: on a PNG capture with background
omission where the capture round trip fails, the transparent override has been
installed but the clearing command is never issued — the early `?` return at
the capture call skips the reset block, so the override leaks. -/
theorem screenshot_clear_skipped_on_capture_failure_cex :
    (screenshotWithOptions optsOmitPng worldCaptureFails).1 =
      .error .captureFailed ∧
    SessionCmd.setBgTransparent ∈ (screenshotWithOptions optsOmitPng worldCaptureFails).2 ∧
    SessionCmd.clearBgOverride ∉ (screenshotWithOptions optsOmitPng worldCaptureFails).2 := by
  refine ⟨rfl, ?_, ?_⟩ <;> decide

/-- Claim C2 (amended): on a PNG capture with background omission, the
transparent override is installed before the capture command; when the capture
round trip succeeds the clearing command is issued immediately after it —
whether or not the reply carries image data — but when activation or the
capture call fails the method returns early and the override is left
installed. -/
theorem screenshot_bg_override_cleared_after_successful_capture :
    ∀ (opts : CaptureOptions) (w : ShotWorld),
      opts.omitBackground = true → opts.format = ImageFormat.Png →
      w.viewportOk = true → w.boxOk = true → w.bgOverrideOk = true →
      w.activateOk = true → w.captureOk = true →
      (screenshotWithOptions opts w).2 =
        (match opts.viewport with | some v => setViewportCmds v | none => []) ++
          [SessionCmd.getBoxModel, SessionCmd.setBgTransparent, SessionCmd.activateTarget,
           SessionCmd.captureScreenshot (buildCaptureParams opts w.border),
           SessionCmd.clearBgOverride] := by
  intro opts w h1 h2 hv hb hbg ha hc
  rcases hd : w.imageData with _ | s <;>
    simp [screenshotWithOptions, h1, h2, hv, hb, hbg, ha, hc, hd]

/-- Witness for C2 (amended): with options `optsOmitPng` and a successful
capture that returns no image data, the issued trace still ends with the
clearing command right after the capture. -/
theorem screenshot_bg_override_cleared_after_successful_capture_witness :
    (screenshotWithOptions optsOmitPng worldNoImageData).2 =
      [SessionCmd.getBoxModel, SessionCmd.setBgTransparent, SessionCmd.activateTarget,
       SessionCmd.captureScreenshot (buildCaptureParams optsOmitPng worldNoImageData.border),
       SessionCmd.clearBgOverride] := by
  have h := screenshot_bg_override_cleared_after_successful_capture optsOmitPng
    worldNoImageData rfl rfl rfl rfl rfl rfl rfl
  simpa using h

/-- Claim C1: evaluated at the failing input — spawn succeeds, the stderr
stream ends without a devtools line — `launch` returns the ws-url error having
only removed the temp profile directory: no kill is performed, because the
bare `Child` is dropped without one and a killing `BrowserProcess` is only
built after `wait_for_ws` succeeds.  More generally, no exit path of `launch`
ever performs a kill. -/
theorem launch_ws_failure_leaves_child_unkilled :
    launch worldWsExtractionFails = (.error .wsUrlNotFound, [.removeTempDir]) ∧
    CleanupAct.killChild ∉ (launch worldWsExtractionFails).2 ∧
    (∀ w : LaunchWorld, CleanupAct.killChild ∉ (launch w).2) := by
  refine ⟨rfl, by decide, ?_⟩
  intro w
  unfold launch
  rcases findChrome w.customPath w.fs with fe | p <;>
    rcases w.wsUrl with _ | u <;>
      rcases w.tempDirOk with _ | _ <;>
        rcases w.portAvailable with _ | _ <;>
          rcases w.spawnOk with _ | _ <;>
            rcases w.stderrPresent with _ | _ <;>
              rcases w.connectOk with _ | _ <;>
                simp

/-- Claim C3: evaluated at counter state `0` and session `"S"` — the trace of
actor messages `goto` produces places the `WaitForEvent` registration for
`Page.loadEventFired` strictly after the `Page.navigate` round trip (requests
`2` and `4` with their embedded-reply listeners come first, the registration
last), because the lazily created `wait_for_event` future only runs when
awaited; consequently an event delivered between the navigate reply and that
registration wakes no waiter, and the late-registered waiter stays pending.
The non-waiting variant issues only the navigate round trip. -/
theorem goto_load_waiter_registered_after_navigate :
    gotoMsgs 0 "S" =
      ([.request 2, .listenTarget 1, .request 4, .listenTarget 3,
        .waitForEvent "S" "Page.loadEventFired"], 4) ∧
    (gotoNoWaitMsgs 0 "S").1 = [.request 2, .listenTarget 1] ∧
    (deliverEvent ActorState.empty "S" "Page.loadEventFired").2 = [] ∧
    (registerWaiter (deliverEvent ActorState.empty "S" "Page.loadEventFired").1
        "S" "Page.loadEventFired" 9).listeners ("S", "Page.loadEventFired") = [9] := by
  refine ⟨?_, ?_, ?_, ?_⟩
  · decide
  · decide
  · rfl
  · simp [registerWaiter, deliverEvent, ActorState.empty]

end CdpShot
